import Mathlib

/-!
Shallow embedding of the `espresso-logic` state-isolation / accessor layer:
the static lookup tables (`bit_count`, `pla_types`), the per-thread context
(the `_Thread_local` globals of `globals.c`), and the accessor functions of
`thread_local_accessors.c`, together with theorems checking the
natural-language specification against this embedding.
-/

namespace Espresso

/-- Number of set bits among the 8 bits of a byte value (Hamming weight),
used as the mathematical reference for the `bit_count` table. -/
def popcnt8 (v : Nat) : Nat := (List.range 8).countP (fun i => v.testBit i)

/-- The 256-entry byte population-count table, transcribed verbatim from
`int bit_count[256]` in `globals.c`. -/
def bit_count : List Nat := [
  0,1,1,2,1,2,2,3,1,2,2,3,2,3,3,4,1,2,2,3,2,3,3,4,2,3,3,4,3,4,4,5,
  1,2,2,3,2,3,3,4,2,3,3,4,3,4,4,5,2,3,3,4,3,4,4,5,3,4,4,5,4,5,5,6,
  1,2,2,3,2,3,3,4,2,3,3,4,3,4,4,5,2,3,3,4,3,4,4,5,3,4,4,5,4,5,5,6,
  2,3,3,4,3,4,4,5,3,4,4,5,4,5,5,6,3,4,4,5,4,5,5,6,4,5,5,6,5,6,6,7,
  1,2,2,3,2,3,3,4,2,3,3,4,3,4,4,5,2,3,3,4,3,4,4,5,3,4,4,5,4,5,5,6,
  2,3,3,4,3,4,4,5,3,4,4,5,4,5,5,6,3,4,4,5,4,5,5,6,4,5,5,6,5,6,6,7,
  2,3,3,4,3,4,4,5,3,4,4,5,4,5,5,6,3,4,4,5,4,5,5,6,4,5,5,6,5,6,6,7,
  3,4,4,5,4,5,5,6,4,5,5,6,5,6,6,7,4,5,5,6,5,6,6,7,5,6,6,7,6,7,7,8]

set_option maxRecDepth 4096

/-- C1: the table has exactly 256 entries and, for every byte value `v`,
entry `v` equals the number of set bits of `v`; in particular entry 255 is
8, entry 0 is 0, and entry 170 is 4. -/
theorem bit_count_is_popcount :
    bit_count.length = 256 ∧
    (∀ v : Fin 256, bit_count.getD v.val 0 = popcnt8 v.val) ∧
    bit_count.getD 255 0 = 8 ∧ bit_count.getD 0 0 = 0 ∧
    bit_count.getD 170 0 = 4 := by
  refine ⟨by decide, ?_, by decide, by decide, by decide⟩
  decide

/-- Modelled from the spec: the elementary PLA-type mask constants
(`F_type`, `R_type`, `D_type`, `PLEASURE_type`, `EQNTOTT_type`, `KISS_type`,
`CONSTRAINTS_type`, `SYMBOLIC_CONSTRAINTS_type`) are defined in `espresso.h`,
which is not among the given sources; the spec describes each as "a bit
pattern identifying which sections a logic-description file contains", so
they are kept as abstract natural-number parameters here. -/
structure PlaMasks where
  F_type : Nat
  R_type : Nat
  D_type : Nat
  PLEASURE_type : Nat
  EQNTOTT_type : Nat
  KISS_type : Nat
  CONSTRAINTS_type : Nat
  SYMBOLIC_CONSTRAINTS_type : Nat

/-- Modelled from the spec: `FD_type` is defined in the missing `espresso.h`;
the spec states that masks for compound tokens are the bitwise OR of the
elementary type masks. -/
def PlaMasks.FD_type (m : PlaMasks) : Nat := m.F_type ||| m.D_type

/-- Modelled from the spec: `FR_type` from the missing `espresso.h`, the OR
of its elementary masks. -/
def PlaMasks.FR_type (m : PlaMasks) : Nat := m.F_type ||| m.R_type

/-- Modelled from the spec: `DR_type` from the missing `espresso.h`, the OR
of its elementary masks. -/
def PlaMasks.DR_type (m : PlaMasks) : Nat := m.D_type ||| m.R_type

/-- Modelled from the spec: `FDR_type` from the missing `espresso.h`, the OR
of its elementary masks. -/
def PlaMasks.FDR_type (m : PlaMasks) : Nat := m.F_type ||| m.D_type ||| m.R_type

/-- One entry of `struct pla_types_struct pla_types[]`: a token (a `char *`,
modelled as `Option String` so that the null pointer of the sentinel entry
is `none`) and a bitmask. -/
structure PlaTypeEntry where
  key : Option String
  value : Nat
deriving DecidableEq

/-- The `pla_types` table of `globals.c`, entry by entry, ending with the
`{0, 0}` sentinel. -/
def pla_types (m : PlaMasks) : List PlaTypeEntry := [
  ⟨some "-f", m.F_type⟩,
  ⟨some "-r", m.R_type⟩,
  ⟨some "-d", m.D_type⟩,
  ⟨some "-fd", m.FD_type⟩,
  ⟨some "-fr", m.FR_type⟩,
  ⟨some "-dr", m.DR_type⟩,
  ⟨some "-fdr", m.FDR_type⟩,
  ⟨some "-fc", m.F_type ||| m.CONSTRAINTS_type⟩,
  ⟨some "-rc", m.R_type ||| m.CONSTRAINTS_type⟩,
  ⟨some "-dc", m.D_type ||| m.CONSTRAINTS_type⟩,
  ⟨some "-fdc", m.FD_type ||| m.CONSTRAINTS_type⟩,
  ⟨some "-frc", m.FR_type ||| m.CONSTRAINTS_type⟩,
  ⟨some "-drc", m.DR_type ||| m.CONSTRAINTS_type⟩,
  ⟨some "-fdrc", m.FDR_type ||| m.CONSTRAINTS_type⟩,
  ⟨some "-pleasure", m.PLEASURE_type⟩,
  ⟨some "-eqn", m.EQNTOTT_type⟩,
  ⟨some "-eqntott", m.EQNTOTT_type⟩,
  ⟨some "-kiss", m.KISS_type⟩,
  ⟨some "-cons", m.CONSTRAINTS_type⟩,
  ⟨some "-scons", m.SYMBOLIC_CONSTRAINTS_type⟩,
  ⟨none, 0⟩]

/-- Modelled from the spec: the code that resolves a command-line token
against `pla_types` lives in the CLI/file-reading module, which is not among
the given sources.  Per the spec it scans the ordered sequence from the
start, returns the mask of the first pair whose token matches exactly
(case-sensitive, full string match), and reports "token not recognized"
(here `none`) when the sentinel is reached first. -/
def lookupFlag : List PlaTypeEntry → String → Option Nat
  | [], _ => none
  | ⟨none, _⟩ :: _, _ => none
  | ⟨some k, v⟩ :: rest, tok => if k = tok then some v else lookupFlag rest tok

/-- Concrete elementary mask values used to witness theorems that are
parametric in `PlaMasks`: pairwise-distinct single bits. -/
def stdMasks : PlaMasks :=
  ⟨1, 2, 4, 8, 16, 32, 64, 128⟩

/-- Helper: a successful lookup returns the mask of some entry of the list
whose token is exactly the looked-up token. -/
theorem lookupFlag_mem (l : List PlaTypeEntry) (tok : String) (v : Nat)
    (h : lookupFlag l tok = some v) :
    ∃ e ∈ l, e.key = some tok ∧ e.value = v := by
  induction l with
  | nil => simp [lookupFlag] at h
  | cons e rest ih =>
    obtain ⟨k, w⟩ := e
    cases k with
    | none => simp [lookupFlag] at h
    | some k =>
      by_cases hk : k = tok
      · subst hk
        simp [lookupFlag] at h
        exact ⟨⟨some k, w⟩, by simp, rfl, by simpa using h⟩
      · simp [lookupFlag, hk] at h
        obtain ⟨e, he, hkey, hval⟩ := ih h
        exact ⟨e, by simp [he], hkey, hval⟩

/-- C2: every compound token of the registry carries the bitwise OR of its
constituent elementary masks; in particular the mask stored for `-fdrc`
equals the OR of the `FD`, `R` and `CONSTRAINTS` masks. -/
theorem pla_types_compound_masks (m : PlaMasks) :
    lookupFlag (pla_types m) "-fdrc"
      = some (m.FD_type ||| m.R_type ||| m.CONSTRAINTS_type) ∧
    lookupFlag (pla_types m) "-fd" = some (m.F_type ||| m.D_type) ∧
    lookupFlag (pla_types m) "-fr" = some (m.F_type ||| m.R_type) ∧
    lookupFlag (pla_types m) "-dr" = some (m.D_type ||| m.R_type) ∧
    lookupFlag (pla_types m) "-fdr"
      = some (m.F_type ||| m.D_type ||| m.R_type) ∧
    lookupFlag (pla_types m) "-fc"
      = some (m.F_type ||| m.CONSTRAINTS_type) ∧
    lookupFlag (pla_types m) "-rc"
      = some (m.R_type ||| m.CONSTRAINTS_type) ∧
    lookupFlag (pla_types m) "-dc"
      = some (m.D_type ||| m.CONSTRAINTS_type) ∧
    lookupFlag (pla_types m) "-fdc"
      = some (m.F_type ||| m.D_type ||| m.CONSTRAINTS_type) ∧
    lookupFlag (pla_types m) "-frc"
      = some (m.F_type ||| m.R_type ||| m.CONSTRAINTS_type) ∧
    lookupFlag (pla_types m) "-drc"
      = some (m.D_type ||| m.R_type ||| m.CONSTRAINTS_type) := by
  exact ⟨rfl, rfl, rfl, rfl, rfl, rfl, rfl, rfl, rfl, rfl, rfl⟩

/-- C7: lookup scans the registry from the start, is case-sensitive and
requires a full string match (so `-fdr` hits the `-fdr` entry and not the
earlier prefix entries `-f`, `-fd`, while `-F` misses); an unregistered
token such as `-zzz` reaches the sentinel and yields the sentinel result
`none` rather than an exception; the general first-match and
sentinel-first behaviours hold for any scan prefix. -/
theorem lookupFlag_first_match_and_miss :
    (∀ m : PlaMasks, lookupFlag (pla_types m) "-zzz" = none) ∧
    (∀ m : PlaMasks, lookupFlag (pla_types m) "-F" = none) ∧
    (∀ m : PlaMasks, lookupFlag (pla_types m) "-fdr"
        = some (m.F_type ||| m.D_type ||| m.R_type)) ∧
    (∀ (pre post : List PlaTypeEntry) (k : String) (v : Nat),
      (∀ e ∈ pre, e.key ≠ none ∧ e.key ≠ some k) →
      lookupFlag (pre ++ ⟨some k, v⟩ :: post) k = some v) ∧
    (∀ (pre post : List PlaTypeEntry) (tok : String) (v : Nat),
      (∀ e ∈ pre, e.key ≠ some tok) →
      lookupFlag (pre ++ ⟨none, v⟩ :: post) tok = none) := by
  refine ⟨fun m => rfl, fun m => rfl, fun m => rfl, ?_, ?_⟩
  · intro pre post k v h
    induction pre with
    | nil => simp [lookupFlag]
    | cons e rest ih =>
      obtain ⟨ek, ev⟩ := e
      have h0 := h ⟨ek, ev⟩ (by simp)
      cases ek with
      | none => simp at h0
      | some ek =>
        have hne : ek ≠ k := by
          intro hc; exact h0.2 (by simp [hc])
        simpa [lookupFlag, hne] using
          ih (fun e he => h e (by simp [he]))
  · intro pre post tok v h
    induction pre with
    | nil => simp [lookupFlag]
    | cons e rest ih =>
      obtain ⟨ek, ev⟩ := e
      cases ek with
      | none => simp [lookupFlag]
      | some ek =>
        have hne : ek ≠ tok := by
          intro hc
          exact h ⟨some ek, ev⟩ (by simp) (by simp [hc])
        simpa [lookupFlag, hne] using
          ih (fun e he => h e (by simp [he]))

/-- Witness for C7: the parametric conjuncts applied at concrete inputs. -/
theorem lookupFlag_first_match_and_miss_witness :
    lookupFlag (pla_types stdMasks) "-zzz" = none ∧
    lookupFlag ([⟨some "-a", 3⟩] ++ ⟨some "-b", 5⟩ :: []) "-b" = some 5 ∧
    lookupFlag ([⟨some "-a", 3⟩] ++ ⟨none, 0⟩ :: []) "-b" = none :=
  ⟨lookupFlag_first_match_and_miss.1 stdMasks,
   lookupFlag_first_match_and_miss.2.2.2.1 [⟨some "-a", 3⟩] [] "-b" 5
     (by decide),
   lookupFlag_first_match_and_miss.2.2.2.2 [⟨some "-a", 3⟩] [] "-b" 0
     (by decide)⟩

/-- Counterexample for C8: the terminating entry of `pla_types` is the
`{0, 0}` pair, whose token is the null pointer (`none`), not the empty
string. -/
theorem pla_types_sentinel_token_not_empty_string :
    (pla_types stdMasks).getLast? = some ⟨none, 0⟩ ∧
    (pla_types stdMasks).getLast? ≠ some ⟨some "", 0⟩ := by
  constructor
  · rfl
  · decide

/-- C8 (amended): the registry is an ordered sequence of (token, bitmask)
pairs terminated by a sentinel pair whose token is null (absent) and whose
mask is zero; every entry before the sentinel has a present token. -/
theorem pla_types_sentinel_terminated (m : PlaMasks) :
    (pla_types m).getLast? = some ⟨none, 0⟩ ∧
    ∀ k ∈ (pla_types m).dropLast.map PlaTypeEntry.key, k ≠ none := by
  refine ⟨rfl, ?_⟩
  have hkeys : (pla_types m).dropLast.map PlaTypeEntry.key =
      [some "-f", some "-r", some "-d", some "-fd", some "-fr", some "-dr",
       some "-fdr", some "-fc", some "-rc", some "-dc", some "-fdc",
       some "-frc", some "-drc", some "-fdrc", some "-pleasure",
       some "-eqn", some "-eqntott", some "-kiss", some "-cons",
       some "-scons"] := rfl
  rw [hkeys]
  decide

/-- C10: when every elementary mask is a nonzero bit pattern, every
non-sentinel entry of the registry has a present (non-null) token and a
nonzero mask, and a successful lookup never returns the sentinel's zero
mask, so zero uniquely identifies a lookup miss. -/
theorem pla_types_nonzero_masks (m : PlaMasks)
    (hF : m.F_type ≠ 0) (hR : m.R_type ≠ 0) (hD : m.D_type ≠ 0)
    (hP : m.PLEASURE_type ≠ 0) (hE : m.EQNTOTT_type ≠ 0)
    (hK : m.KISS_type ≠ 0) (hC : m.CONSTRAINTS_type ≠ 0)
    (hS : m.SYMBOLIC_CONSTRAINTS_type ≠ 0) :
    (∀ e ∈ (pla_types m).dropLast, e.key ≠ none ∧ e.value ≠ 0) ∧
    (∀ tok v, lookupFlag (pla_types m) tok = some v → v ≠ 0) := by
  have hor : ∀ a b : Nat, a ≠ 0 → a ||| b ≠ 0 := by
    intro a b ha hc
    refine ha (Nat.zero_of_testBit_eq_false fun i => ?_)
    have h1 := congrArg (fun n => Nat.testBit n i) hc
    simp only [Nat.testBit_or, Nat.zero_testBit, Bool.or_eq_false_iff] at h1
    exact h1.1
  have hmain : ∀ e ∈ (pla_types m).dropLast, e.key ≠ none ∧ e.value ≠ 0 := by
    intro e he
    have hdrop : (pla_types m).dropLast = (pla_types m).take 20 := rfl
    rw [hdrop] at he
    simp only [pla_types, List.take, List.mem_cons, List.not_mem_nil,
      or_false] at he
    rcases he with rfl | rfl | rfl | rfl | rfl | rfl | rfl | rfl | rfl | rfl |
      rfl | rfl | rfl | rfl | rfl | rfl | rfl | rfl | rfl | rfl
    all_goals refine ⟨by simp, ?_⟩
    all_goals first
      | assumption
      | exact hor _ _ hF
      | exact hor _ _ hR
      | exact hor _ _ hD
      | exact hor _ _ (hor _ _ hF)
      | exact hor _ _ (hor _ _ hD)
      | exact hor _ _ (hor _ _ (hor _ _ hF))
  refine ⟨hmain, ?_⟩
  intro tok v hv
  obtain ⟨e, he, hkey, hval⟩ := lookupFlag_mem _ _ _ hv
  have hin : e ∈ (pla_types m).dropLast := by
    have hsplit : pla_types m = (pla_types m).dropLast ++ [⟨none, 0⟩] := rfl
    rw [hsplit, List.mem_append] at he
    rcases he with he | he
    · exact he
    · simp at he
      rw [he] at hkey
      simp at hkey
  exact hval ▸ (hmain e hin).2

/-- Witness for C10: with concrete nonzero elementary masks, the `-f` entry
has a nonzero mask and the recognized token `-fdrc` resolves to a nonzero
mask. -/
theorem pla_types_nonzero_masks_witness :
    (⟨some "-f", 1⟩ : PlaTypeEntry).value ≠ 0 ∧ (71 : Nat) ≠ 0 :=
  ⟨((pla_types_nonzero_masks stdMasks (by decide) (by decide) (by decide)
      (by decide) (by decide) (by decide) (by decide) (by decide)).1
      ⟨some "-f", 1⟩ (by decide)).2,
   (pla_types_nonzero_masks stdMasks (by decide) (by decide) (by decide)
      (by decide) (by decide) (by decide) (by decide) (by decide)).2
      "-fdrc" 71 (by decide)⟩

/-- Identifier of an executing thread. -/
abbrev ThreadId := Nat

/-- The per-thread mutable state: one field for each `_Thread_local`
variable of `globals.c`, in declaration order.  `Cube` and `Cdata` stand
for the opaque aggregates `struct cube_struct` and `struct cdata_struct`,
whose layout lives in the missing `espresso.h` and which the spec treats as
opaque; `char *` values are modelled as `Option String` with the null
pointer as `none`. -/
structure ThreadContext (Cube Cdata : Type) where
  debug : Nat
  verbose_debug : Bool
  total_name : List (Option String)
  total_time : List Int
  total_calls : List Int
  echo_comments : Bool
  echo_unknown_commands : Bool
  force_irredundant : Bool
  skip_make_sparse : Bool
  kiss : Bool
  pos : Bool
  print_solution : Bool
  recompute_onset : Bool
  remove_essential : Bool
  single_expand : Bool
  summary : Bool
  trace : Bool
  unwrap_onset : Bool
  use_random_order : Bool
  use_super_gasp : Bool
  filename : Option String
  cube : Cube
  temp_cube_save : Cube
  cdata : Cdata
  temp_cdata_save : Cdata

/-- C zero-initialization of the `_Thread_local` variables: a fresh thread
reads zero/false/null in every scalar, `TIME_COUNT` zeroed timing slots
(`tc` abstracts the `TIME_COUNT` constant of the missing `espresso.h`), and
zero-initialized opaque aggregates `c0`, `d0`. -/
def initCtx (Cube Cdata : Type) (tc : Nat) (c0 : Cube) (d0 : Cdata) :
    ThreadContext Cube Cdata :=
  ⟨0, false, List.replicate tc none, List.replicate tc 0,
   List.replicate tc 0, false, false, false, false, false, false, false,
   false, false, false, false, false, false, false, false, none,
   c0, c0, d0, d0⟩

variable {Cube Cdata : Type}

/-- Setter `set_debug` of `thread_local_accessors.c`: `debug = value;`. -/
def set_debug (value : Nat) (c : ThreadContext Cube Cdata) :
    ThreadContext Cube Cdata := { c with debug := value }

/-- Setter `set_verbose_debug`: `verbose_debug = value;`. -/
def set_verbose_debug (value : Bool) (c : ThreadContext Cube Cdata) :
    ThreadContext Cube Cdata := { c with verbose_debug := value }

/-- Setter `set_trace`: `trace = value;`. -/
def set_trace (value : Bool) (c : ThreadContext Cube Cdata) :
    ThreadContext Cube Cdata := { c with trace := value }

/-- Setter `set_summary`: `summary = value;`. -/
def set_summary (value : Bool) (c : ThreadContext Cube Cdata) :
    ThreadContext Cube Cdata := { c with summary := value }

/-- Setter `set_remove_essential`: `remove_essential = value;`. -/
def set_remove_essential (value : Bool) (c : ThreadContext Cube Cdata) :
    ThreadContext Cube Cdata := { c with remove_essential := value }

/-- Setter `set_force_irredundant`: `force_irredundant = value;`. -/
def set_force_irredundant (value : Bool) (c : ThreadContext Cube Cdata) :
    ThreadContext Cube Cdata := { c with force_irredundant := value }

/-- Setter `set_unwrap_onset`: `unwrap_onset = value;`. -/
def set_unwrap_onset (value : Bool) (c : ThreadContext Cube Cdata) :
    ThreadContext Cube Cdata := { c with unwrap_onset := value }

/-- Setter `set_single_expand`: `single_expand = value;`. -/
def set_single_expand (value : Bool) (c : ThreadContext Cube Cdata) :
    ThreadContext Cube Cdata := { c with single_expand := value }

/-- Setter `set_use_super_gasp`: `use_super_gasp = value;`. -/
def set_use_super_gasp (value : Bool) (c : ThreadContext Cube Cdata) :
    ThreadContext Cube Cdata := { c with use_super_gasp := value }

/-- Setter `set_use_random_order`: `use_random_order = value;`. -/
def set_use_random_order (value : Bool) (c : ThreadContext Cube Cdata) :
    ThreadContext Cube Cdata := { c with use_random_order := value }

/-- Setter `set_skip_make_sparse`: `skip_make_sparse = value;`. -/
def set_skip_make_sparse (value : Bool) (c : ThreadContext Cube Cdata) :
    ThreadContext Cube Cdata := { c with skip_make_sparse := value }

/-- The state of all threads: one independent `ThreadContext` per
`ThreadId` (the semantics of `_Thread_local` storage). -/
abbrev Sys (Cube Cdata : Type) := ThreadId → ThreadContext Cube Cdata

/-- All threads freshly started: every context zero-initialized. -/
def initSys (Cube Cdata : Type) (tc : Nat) (c0 : Cube) (d0 : Cdata) :
    Sys Cube Cdata := fun _ => initCtx Cube Cdata tc c0 d0

/-- Applying a context transformer on one thread: `_Thread_local` stores
executed by thread `t` touch only thread `t`'s instance. -/
def sysUpdate (t : ThreadId)
    (f : ThreadContext Cube Cdata → ThreadContext Cube Cdata)
    (s : Sys Cube Cdata) : Sys Cube Cdata :=
  fun u => if u = t then f (s u) else s u

/-- The ten boolean configuration flags exposed through the accessor layer
of `thread_local_accessors.c`. -/
inductive BoolFlag
  | verbose_debug
  | trace
  | summary
  | remove_essential
  | force_irredundant
  | unwrap_onset
  | single_expand
  | use_super_gasp
  | use_random_order
  | skip_make_sparse
deriving DecidableEq

/-- Reading the thread-local variable a boolean flag pointer refers to. -/
def flagRead (f : BoolFlag) (c : ThreadContext Cube Cdata) : Bool :=
  match f with
  | .verbose_debug => c.verbose_debug
  | .trace => c.trace
  | .summary => c.summary
  | .remove_essential => c.remove_essential
  | .force_irredundant => c.force_irredundant
  | .unwrap_onset => c.unwrap_onset
  | .single_expand => c.single_expand
  | .use_super_gasp => c.use_super_gasp
  | .use_random_order => c.use_random_order
  | .skip_make_sparse => c.skip_make_sparse

/-- Dispatch to the named value-setter of a boolean flag. -/
def flagSet (f : BoolFlag) :
    Bool → ThreadContext Cube Cdata → ThreadContext Cube Cdata :=
  match f with
  | .verbose_debug => set_verbose_debug
  | .trace => set_trace
  | .summary => set_summary
  | .remove_essential => set_remove_essential
  | .force_irredundant => set_force_irredundant
  | .unwrap_onset => set_unwrap_onset
  | .single_expand => set_single_expand
  | .use_super_gasp => set_use_super_gasp
  | .use_random_order => set_use_random_order
  | .skip_make_sparse => set_skip_make_sparse

/-- Address of the thread-local `debug` variable of one thread: the value
of the pointer `get_debug_ptr` returns there. -/
structure DebugAddr where
  thread : ThreadId
deriving DecidableEq

/-- Address of one thread's instance of one boolean flag variable. -/
structure BoolAddr where
  thread : ThreadId
  fld : BoolFlag
deriving DecidableEq

/-- Address of one thread's `cube` variable (`struct cube_struct cube`). -/
structure CubeAddr where
  thread : ThreadId
deriving DecidableEq

/-- Address of one thread's `cdata` variable (`struct cdata_struct cdata`). -/
structure CdataAddr where
  thread : ThreadId
deriving DecidableEq

/-- Accessor `get_cube` executed on thread `t`: returns `&cube`, the address of that
thread's `cube` instance. -/
def get_cube (t : ThreadId) : CubeAddr := ⟨t⟩

/-- Accessor `get_cdata` executed on thread `t`: returns `&cdata`. -/
def get_cdata (t : ThreadId) : CdataAddr := ⟨t⟩

/-- Accessor `get_debug_ptr` executed on thread `t`: returns `&debug`. -/
def get_debug_ptr (t : ThreadId) : DebugAddr := ⟨t⟩

/-- Accessor `get_verbose_debug_ptr` executed on thread `t`. -/
def get_verbose_debug_ptr (t : ThreadId) : BoolAddr := ⟨t, .verbose_debug⟩

/-- Accessor `get_trace_ptr` executed on thread `t`. -/
def get_trace_ptr (t : ThreadId) : BoolAddr := ⟨t, .trace⟩

/-- Accessor `get_summary_ptr` executed on thread `t`. -/
def get_summary_ptr (t : ThreadId) : BoolAddr := ⟨t, .summary⟩

/-- Accessor `get_remove_essential_ptr` executed on thread `t`. -/
def get_remove_essential_ptr (t : ThreadId) : BoolAddr :=
  ⟨t, .remove_essential⟩

/-- Accessor `get_force_irredundant_ptr` executed on thread `t`. -/
def get_force_irredundant_ptr (t : ThreadId) : BoolAddr :=
  ⟨t, .force_irredundant⟩

/-- Accessor `get_unwrap_onset_ptr` executed on thread `t`. -/
def get_unwrap_onset_ptr (t : ThreadId) : BoolAddr := ⟨t, .unwrap_onset⟩

/-- Accessor `get_single_expand_ptr` executed on thread `t`. -/
def get_single_expand_ptr (t : ThreadId) : BoolAddr := ⟨t, .single_expand⟩

/-- Accessor `get_use_super_gasp_ptr` executed on thread `t`. -/
def get_use_super_gasp_ptr (t : ThreadId) : BoolAddr := ⟨t, .use_super_gasp⟩

/-- Accessor `get_use_random_order_ptr` executed on thread `t`. -/
def get_use_random_order_ptr (t : ThreadId) : BoolAddr :=
  ⟨t, .use_random_order⟩

/-- Accessor `get_skip_make_sparse_ptr` executed on thread `t`. -/
def get_skip_make_sparse_ptr (t : ThreadId) : BoolAddr :=
  ⟨t, .skip_make_sparse⟩

/-- Dereferencing a `debug` pointer. -/
def readDebugAddr (a : DebugAddr) (s : Sys Cube Cdata) : Nat :=
  (s a.thread).debug

/-- Dereferencing a boolean flag pointer. -/
def readBoolAddr (a : BoolAddr) (s : Sys Cube Cdata) : Bool :=
  flagRead a.fld (s a.thread)

/-- Reading the cube descriptor through a returned `struct cube_struct *`. -/
def readCubeAddr (a : CubeAddr) (s : Sys Cube Cdata) : Cube :=
  (s a.thread).cube

/-- Writing the cube descriptor in place through a returned pointer. -/
def writeCubeAddr (a : CubeAddr) (v : Cube) (s : Sys Cube Cdata) :
    Sys Cube Cdata :=
  sysUpdate a.thread (fun c => { c with cube := v }) s

/-- Reading the cube data through a returned `struct cdata_struct *`. -/
def readCdataAddr (a : CdataAddr) (s : Sys Cube Cdata) : Cdata :=
  (s a.thread).cdata

/-- Writing the cube data in place through a returned pointer. -/
def writeCdataAddr (a : CdataAddr) (v : Cdata) (s : Sys Cube Cdata) :
    Sys Cube Cdata :=
  sysUpdate a.thread (fun c => { c with cdata := v }) s

/-- Setter `set_debug` invoked by code running on thread `t`. -/
def sysSet_debug (t : ThreadId) (v : Nat) (s : Sys Cube Cdata) :
    Sys Cube Cdata :=
  sysUpdate t (set_debug v) s

/-- A boolean flag value-setter invoked by code running on thread `t`. -/
def sysSetFlag (t : ThreadId) (f : BoolFlag) (v : Bool)
    (s : Sys Cube Cdata) : Sys Cube Cdata :=
  sysUpdate t (flagSet f v) s

/-- C3: on a freshly started thread, before any setter has run, every
boolean flag reads false, the debug level reads 0, every timing counter
(cumulative time and call count) is zero, and the filename (like every
timing-slot name) is unset. -/
theorem fresh_thread_defaults (Cube Cdata : Type) (tc : Nat)
    (c0 : Cube) (d0 : Cdata) :
    (initCtx Cube Cdata tc c0 d0).debug = 0 ∧
    (initCtx Cube Cdata tc c0 d0).verbose_debug = false ∧
    (initCtx Cube Cdata tc c0 d0).echo_comments = false ∧
    (initCtx Cube Cdata tc c0 d0).echo_unknown_commands = false ∧
    (initCtx Cube Cdata tc c0 d0).force_irredundant = false ∧
    (initCtx Cube Cdata tc c0 d0).skip_make_sparse = false ∧
    (initCtx Cube Cdata tc c0 d0).kiss = false ∧
    (initCtx Cube Cdata tc c0 d0).pos = false ∧
    (initCtx Cube Cdata tc c0 d0).print_solution = false ∧
    (initCtx Cube Cdata tc c0 d0).recompute_onset = false ∧
    (initCtx Cube Cdata tc c0 d0).remove_essential = false ∧
    (initCtx Cube Cdata tc c0 d0).single_expand = false ∧
    (initCtx Cube Cdata tc c0 d0).summary = false ∧
    (initCtx Cube Cdata tc c0 d0).trace = false ∧
    (initCtx Cube Cdata tc c0 d0).unwrap_onset = false ∧
    (initCtx Cube Cdata tc c0 d0).use_random_order = false ∧
    (initCtx Cube Cdata tc c0 d0).use_super_gasp = false ∧
    (∀ x ∈ (initCtx Cube Cdata tc c0 d0).total_time, x = 0) ∧
    (∀ x ∈ (initCtx Cube Cdata tc c0 d0).total_calls, x = 0) ∧
    (∀ x ∈ (initCtx Cube Cdata tc c0 d0).total_name, x = none) ∧
    (initCtx Cube Cdata tc c0 d0).filename = none := by
  refine ⟨rfl, rfl, rfl, rfl, rfl, rfl, rfl, rfl, rfl, rfl, rfl, rfl, rfl,
    rfl, rfl, rfl, rfl, ?_, ?_, ?_, rfl⟩ <;>
    exact fun x hx => List.eq_of_mem_replicate hx

/-- Witness for C3: the defaults at a concrete fresh context with two
timing slots. -/
theorem fresh_thread_defaults_witness :
    (initCtx Unit Unit 2 () ()).debug = 0 ∧
    (initCtx Unit Unit 2 () ()).trace = false ∧ (0 : Int) = 0 := by
  obtain ⟨h1, _, _, _, _, _, _, _, _, _, _, _, _, h14, _, _, _, ht, _, _, _⟩ :=
    fresh_thread_defaults Unit Unit 2 () ()
  exact ⟨h1, h14, ht 0 (by decide)⟩

/-- C4: setting a flag and immediately reading it back through the
corresponding pointer-getter on the same thread yields the value written,
for the unsigned debug level (any 32-bit value) and each of the ten
exposed boolean flags (any boolean). -/
theorem set_get_roundtrip (Cube Cdata : Type) (s : Sys Cube Cdata)
    (t : ThreadId) :
    (∀ v : Nat, v < 2 ^ 32 →
      readDebugAddr (get_debug_ptr t) (sysSet_debug t v s) = v) ∧
    (∀ v : Bool, readBoolAddr (get_verbose_debug_ptr t)
      (sysUpdate t (set_verbose_debug v) s) = v) ∧
    (∀ v : Bool, readBoolAddr (get_trace_ptr t)
      (sysUpdate t (set_trace v) s) = v) ∧
    (∀ v : Bool, readBoolAddr (get_summary_ptr t)
      (sysUpdate t (set_summary v) s) = v) ∧
    (∀ v : Bool, readBoolAddr (get_remove_essential_ptr t)
      (sysUpdate t (set_remove_essential v) s) = v) ∧
    (∀ v : Bool, readBoolAddr (get_force_irredundant_ptr t)
      (sysUpdate t (set_force_irredundant v) s) = v) ∧
    (∀ v : Bool, readBoolAddr (get_unwrap_onset_ptr t)
      (sysUpdate t (set_unwrap_onset v) s) = v) ∧
    (∀ v : Bool, readBoolAddr (get_single_expand_ptr t)
      (sysUpdate t (set_single_expand v) s) = v) ∧
    (∀ v : Bool, readBoolAddr (get_use_super_gasp_ptr t)
      (sysUpdate t (set_use_super_gasp v) s) = v) ∧
    (∀ v : Bool, readBoolAddr (get_use_random_order_ptr t)
      (sysUpdate t (set_use_random_order v) s) = v) ∧
    (∀ v : Bool, readBoolAddr (get_skip_make_sparse_ptr t)
      (sysUpdate t (set_skip_make_sparse v) s) = v) := by
  refine ⟨fun v _ => ?_, fun v => ?_, fun v => ?_, fun v => ?_, fun v => ?_,
    fun v => ?_, fun v => ?_, fun v => ?_, fun v => ?_, fun v => ?_,
    fun v => ?_⟩ <;>
    simp [readDebugAddr, readBoolAddr, get_debug_ptr, get_verbose_debug_ptr,
      get_trace_ptr, get_summary_ptr, get_remove_essential_ptr,
      get_force_irredundant_ptr, get_unwrap_onset_ptr, get_single_expand_ptr,
      get_use_super_gasp_ptr, get_use_random_order_ptr,
      get_skip_make_sparse_ptr, sysSet_debug, sysUpdate, flagRead,
      set_debug, set_verbose_debug, set_trace, set_summary,
      set_remove_essential, set_force_irredundant, set_unwrap_onset,
      set_single_expand, set_use_super_gasp, set_use_random_order,
      set_skip_make_sparse]

/-- Witness for C4: the round trip at the extreme unsigned value
4294967295 and at both booleans, on thread 0 of a fresh system. -/
theorem set_get_roundtrip_witness :
    readDebugAddr (get_debug_ptr 0)
      (sysSet_debug 0 4294967295 (initSys Unit Unit 1 () ())) = 4294967295 ∧
    readBoolAddr (get_trace_ptr 0)
      (sysUpdate 0 (set_trace true) (initSys Unit Unit 1 () ())) = true ∧
    readBoolAddr (get_trace_ptr 0)
      (sysUpdate 0 (set_trace false) (initSys Unit Unit 1 () ())) = false := by
  have h := set_get_roundtrip Unit Unit (initSys Unit Unit 1 () ()) 0
  exact ⟨h.1 4294967295 (by decide), h.2.2.1 true, h.2.2.1 false⟩

/-- C5: per-thread isolation.  If thread `A` sets its debug level to 5 and
its trace flag to true while thread `B` performs no sets, thread `B` still
reads debug 0 and trace false; in general a setter executed on thread `t`
leaves every other thread's context untouched. -/
theorem thread_isolation (Cube Cdata : Type) (tc : Nat) (c0 : Cube)
    (d0 : Cdata) (A B : ThreadId) (hAB : A ≠ B) :
    readDebugAddr (get_debug_ptr B)
      (sysSetFlag A .trace true
        (sysSet_debug A 5 (initSys Cube Cdata tc c0 d0))) = 0 ∧
    readBoolAddr (get_trace_ptr B)
      (sysSetFlag A .trace true
        (sysSet_debug A 5 (initSys Cube Cdata tc c0 d0))) = false ∧
    (∀ (s : Sys Cube Cdata) (t u : ThreadId) (v : Nat), u ≠ t →
      sysSet_debug t v s u = s u) ∧
    (∀ (s : Sys Cube Cdata) (t u : ThreadId) (f : BoolFlag) (v : Bool),
      u ≠ t → sysSetFlag t f v s u = s u) := by
  have hBA : (B = A) = False := eq_false (Ne.symm hAB)
  refine ⟨?_, ?_, ?_, ?_⟩
  · simp [readDebugAddr, get_debug_ptr, sysSetFlag, sysSet_debug, sysUpdate,
      hBA, initSys, initCtx]
  · simp [readBoolAddr, get_trace_ptr, sysSetFlag, sysSet_debug, sysUpdate,
      hBA, initSys, initCtx, flagRead]
  · intro s t u v h
    simp [sysSet_debug, sysUpdate, h]
  · intro s t u f v h
    simp [sysSetFlag, sysUpdate, h]

/-- Witness for C5: thread 0 sets debug 5 and trace true; thread 1 still
reads 0 and false. -/
theorem thread_isolation_witness :
    readDebugAddr (get_debug_ptr 1)
      (sysSetFlag 0 .trace true
        (sysSet_debug 0 5 (initSys Unit Unit 1 () ()))) = 0 ∧
    readBoolAddr (get_trace_ptr 1)
      (sysSetFlag 0 .trace true
        (sysSet_debug 0 5 (initSys Unit Unit 1 () ()))) = false := by
  have h := thread_isolation Unit Unit 1 () () 0 1 (by decide)
  exact ⟨h.1, h.2.1⟩

/-- C6: on one thread, two calls to `get_cube` return the same address
(the same storage), so a write through the pointer the first call returned
is visible through the pointer the second call returns; likewise for
`get_cdata`. -/
theorem get_cube_identity_stability (Cube Cdata : Type)
    (s : Sys Cube Cdata) (t : ThreadId) (c : Cube) (d : Cdata) :
    get_cube t = get_cube t ∧
    readCubeAddr (get_cube t) (writeCubeAddr (get_cube t) c s) = c ∧
    get_cdata t = get_cdata t ∧
    readCdataAddr (get_cdata t) (writeCdataAddr (get_cdata t) d s) = d := by
  refine ⟨rfl, ?_, rfl, ?_⟩ <;>
    simp [readCubeAddr, writeCubeAddr, readCdataAddr, writeCdataAddr,
      get_cube, get_cdata, sysUpdate]

/-- C9: each of the eleven setters performs one unconditional store: it
accepts any value of its type, stores it into its own field, and leaves
every other item of the same thread's context (the other flags, the cube
descriptor and cube data, the saved slots, the timing counters, and the
filename) unchanged. -/
theorem setters_single_store_frame (Cube Cdata : Type) :
    (∀ (c : ThreadContext Cube Cdata) (v : Nat),
      (set_debug v c).debug = v ∧
      (set_debug v c).verbose_debug = c.verbose_debug ∧
      (set_debug v c).total_name = c.total_name ∧
      (set_debug v c).total_time = c.total_time ∧
      (set_debug v c).total_calls = c.total_calls ∧
      (set_debug v c).echo_comments = c.echo_comments ∧
      (set_debug v c).echo_unknown_commands = c.echo_unknown_commands ∧
      (set_debug v c).force_irredundant = c.force_irredundant ∧
      (set_debug v c).skip_make_sparse = c.skip_make_sparse ∧
      (set_debug v c).kiss = c.kiss ∧
      (set_debug v c).pos = c.pos ∧
      (set_debug v c).print_solution = c.print_solution ∧
      (set_debug v c).recompute_onset = c.recompute_onset ∧
      (set_debug v c).remove_essential = c.remove_essential ∧
      (set_debug v c).single_expand = c.single_expand ∧
      (set_debug v c).summary = c.summary ∧
      (set_debug v c).trace = c.trace ∧
      (set_debug v c).unwrap_onset = c.unwrap_onset ∧
      (set_debug v c).use_random_order = c.use_random_order ∧
      (set_debug v c).use_super_gasp = c.use_super_gasp ∧
      (set_debug v c).filename = c.filename ∧
      (set_debug v c).cube = c.cube ∧
      (set_debug v c).temp_cube_save = c.temp_cube_save ∧
      (set_debug v c).cdata = c.cdata ∧
      (set_debug v c).temp_cdata_save = c.temp_cdata_save) ∧
    (∀ (c : ThreadContext Cube Cdata) (v : Bool),
      (set_verbose_debug v c).verbose_debug = v ∧
      (set_verbose_debug v c).debug = c.debug ∧
      (set_verbose_debug v c).total_name = c.total_name ∧
      (set_verbose_debug v c).total_time = c.total_time ∧
      (set_verbose_debug v c).total_calls = c.total_calls ∧
      (set_verbose_debug v c).echo_comments = c.echo_comments ∧
      (set_verbose_debug v c).echo_unknown_commands = c.echo_unknown_commands ∧
      (set_verbose_debug v c).force_irredundant = c.force_irredundant ∧
      (set_verbose_debug v c).skip_make_sparse = c.skip_make_sparse ∧
      (set_verbose_debug v c).kiss = c.kiss ∧
      (set_verbose_debug v c).pos = c.pos ∧
      (set_verbose_debug v c).print_solution = c.print_solution ∧
      (set_verbose_debug v c).recompute_onset = c.recompute_onset ∧
      (set_verbose_debug v c).remove_essential = c.remove_essential ∧
      (set_verbose_debug v c).single_expand = c.single_expand ∧
      (set_verbose_debug v c).summary = c.summary ∧
      (set_verbose_debug v c).trace = c.trace ∧
      (set_verbose_debug v c).unwrap_onset = c.unwrap_onset ∧
      (set_verbose_debug v c).use_random_order = c.use_random_order ∧
      (set_verbose_debug v c).use_super_gasp = c.use_super_gasp ∧
      (set_verbose_debug v c).filename = c.filename ∧
      (set_verbose_debug v c).cube = c.cube ∧
      (set_verbose_debug v c).temp_cube_save = c.temp_cube_save ∧
      (set_verbose_debug v c).cdata = c.cdata ∧
      (set_verbose_debug v c).temp_cdata_save = c.temp_cdata_save) ∧
    (∀ (c : ThreadContext Cube Cdata) (v : Bool),
      (set_trace v c).trace = v ∧
      (set_trace v c).debug = c.debug ∧
      (set_trace v c).verbose_debug = c.verbose_debug ∧
      (set_trace v c).total_name = c.total_name ∧
      (set_trace v c).total_time = c.total_time ∧
      (set_trace v c).total_calls = c.total_calls ∧
      (set_trace v c).echo_comments = c.echo_comments ∧
      (set_trace v c).echo_unknown_commands = c.echo_unknown_commands ∧
      (set_trace v c).force_irredundant = c.force_irredundant ∧
      (set_trace v c).skip_make_sparse = c.skip_make_sparse ∧
      (set_trace v c).kiss = c.kiss ∧
      (set_trace v c).pos = c.pos ∧
      (set_trace v c).print_solution = c.print_solution ∧
      (set_trace v c).recompute_onset = c.recompute_onset ∧
      (set_trace v c).remove_essential = c.remove_essential ∧
      (set_trace v c).single_expand = c.single_expand ∧
      (set_trace v c).summary = c.summary ∧
      (set_trace v c).unwrap_onset = c.unwrap_onset ∧
      (set_trace v c).use_random_order = c.use_random_order ∧
      (set_trace v c).use_super_gasp = c.use_super_gasp ∧
      (set_trace v c).filename = c.filename ∧
      (set_trace v c).cube = c.cube ∧
      (set_trace v c).temp_cube_save = c.temp_cube_save ∧
      (set_trace v c).cdata = c.cdata ∧
      (set_trace v c).temp_cdata_save = c.temp_cdata_save) ∧
    (∀ (c : ThreadContext Cube Cdata) (v : Bool),
      (set_summary v c).summary = v ∧
      (set_summary v c).debug = c.debug ∧
      (set_summary v c).verbose_debug = c.verbose_debug ∧
      (set_summary v c).total_name = c.total_name ∧
      (set_summary v c).total_time = c.total_time ∧
      (set_summary v c).total_calls = c.total_calls ∧
      (set_summary v c).echo_comments = c.echo_comments ∧
      (set_summary v c).echo_unknown_commands = c.echo_unknown_commands ∧
      (set_summary v c).force_irredundant = c.force_irredundant ∧
      (set_summary v c).skip_make_sparse = c.skip_make_sparse ∧
      (set_summary v c).kiss = c.kiss ∧
      (set_summary v c).pos = c.pos ∧
      (set_summary v c).print_solution = c.print_solution ∧
      (set_summary v c).recompute_onset = c.recompute_onset ∧
      (set_summary v c).remove_essential = c.remove_essential ∧
      (set_summary v c).single_expand = c.single_expand ∧
      (set_summary v c).trace = c.trace ∧
      (set_summary v c).unwrap_onset = c.unwrap_onset ∧
      (set_summary v c).use_random_order = c.use_random_order ∧
      (set_summary v c).use_super_gasp = c.use_super_gasp ∧
      (set_summary v c).filename = c.filename ∧
      (set_summary v c).cube = c.cube ∧
      (set_summary v c).temp_cube_save = c.temp_cube_save ∧
      (set_summary v c).cdata = c.cdata ∧
      (set_summary v c).temp_cdata_save = c.temp_cdata_save) ∧
    (∀ (c : ThreadContext Cube Cdata) (v : Bool),
      (set_remove_essential v c).remove_essential = v ∧
      (set_remove_essential v c).debug = c.debug ∧
      (set_remove_essential v c).verbose_debug = c.verbose_debug ∧
      (set_remove_essential v c).total_name = c.total_name ∧
      (set_remove_essential v c).total_time = c.total_time ∧
      (set_remove_essential v c).total_calls = c.total_calls ∧
      (set_remove_essential v c).echo_comments = c.echo_comments ∧
      (set_remove_essential v c).echo_unknown_commands = c.echo_unknown_commands ∧
      (set_remove_essential v c).force_irredundant = c.force_irredundant ∧
      (set_remove_essential v c).skip_make_sparse = c.skip_make_sparse ∧
      (set_remove_essential v c).kiss = c.kiss ∧
      (set_remove_essential v c).pos = c.pos ∧
      (set_remove_essential v c).print_solution = c.print_solution ∧
      (set_remove_essential v c).recompute_onset = c.recompute_onset ∧
      (set_remove_essential v c).single_expand = c.single_expand ∧
      (set_remove_essential v c).summary = c.summary ∧
      (set_remove_essential v c).trace = c.trace ∧
      (set_remove_essential v c).unwrap_onset = c.unwrap_onset ∧
      (set_remove_essential v c).use_random_order = c.use_random_order ∧
      (set_remove_essential v c).use_super_gasp = c.use_super_gasp ∧
      (set_remove_essential v c).filename = c.filename ∧
      (set_remove_essential v c).cube = c.cube ∧
      (set_remove_essential v c).temp_cube_save = c.temp_cube_save ∧
      (set_remove_essential v c).cdata = c.cdata ∧
      (set_remove_essential v c).temp_cdata_save = c.temp_cdata_save) ∧
    (∀ (c : ThreadContext Cube Cdata) (v : Bool),
      (set_force_irredundant v c).force_irredundant = v ∧
      (set_force_irredundant v c).debug = c.debug ∧
      (set_force_irredundant v c).verbose_debug = c.verbose_debug ∧
      (set_force_irredundant v c).total_name = c.total_name ∧
      (set_force_irredundant v c).total_time = c.total_time ∧
      (set_force_irredundant v c).total_calls = c.total_calls ∧
      (set_force_irredundant v c).echo_comments = c.echo_comments ∧
      (set_force_irredundant v c).echo_unknown_commands = c.echo_unknown_commands ∧
      (set_force_irredundant v c).skip_make_sparse = c.skip_make_sparse ∧
      (set_force_irredundant v c).kiss = c.kiss ∧
      (set_force_irredundant v c).pos = c.pos ∧
      (set_force_irredundant v c).print_solution = c.print_solution ∧
      (set_force_irredundant v c).recompute_onset = c.recompute_onset ∧
      (set_force_irredundant v c).remove_essential = c.remove_essential ∧
      (set_force_irredundant v c).single_expand = c.single_expand ∧
      (set_force_irredundant v c).summary = c.summary ∧
      (set_force_irredundant v c).trace = c.trace ∧
      (set_force_irredundant v c).unwrap_onset = c.unwrap_onset ∧
      (set_force_irredundant v c).use_random_order = c.use_random_order ∧
      (set_force_irredundant v c).use_super_gasp = c.use_super_gasp ∧
      (set_force_irredundant v c).filename = c.filename ∧
      (set_force_irredundant v c).cube = c.cube ∧
      (set_force_irredundant v c).temp_cube_save = c.temp_cube_save ∧
      (set_force_irredundant v c).cdata = c.cdata ∧
      (set_force_irredundant v c).temp_cdata_save = c.temp_cdata_save) ∧
    (∀ (c : ThreadContext Cube Cdata) (v : Bool),
      (set_unwrap_onset v c).unwrap_onset = v ∧
      (set_unwrap_onset v c).debug = c.debug ∧
      (set_unwrap_onset v c).verbose_debug = c.verbose_debug ∧
      (set_unwrap_onset v c).total_name = c.total_name ∧
      (set_unwrap_onset v c).total_time = c.total_time ∧
      (set_unwrap_onset v c).total_calls = c.total_calls ∧
      (set_unwrap_onset v c).echo_comments = c.echo_comments ∧
      (set_unwrap_onset v c).echo_unknown_commands = c.echo_unknown_commands ∧
      (set_unwrap_onset v c).force_irredundant = c.force_irredundant ∧
      (set_unwrap_onset v c).skip_make_sparse = c.skip_make_sparse ∧
      (set_unwrap_onset v c).kiss = c.kiss ∧
      (set_unwrap_onset v c).pos = c.pos ∧
      (set_unwrap_onset v c).print_solution = c.print_solution ∧
      (set_unwrap_onset v c).recompute_onset = c.recompute_onset ∧
      (set_unwrap_onset v c).remove_essential = c.remove_essential ∧
      (set_unwrap_onset v c).single_expand = c.single_expand ∧
      (set_unwrap_onset v c).summary = c.summary ∧
      (set_unwrap_onset v c).trace = c.trace ∧
      (set_unwrap_onset v c).use_random_order = c.use_random_order ∧
      (set_unwrap_onset v c).use_super_gasp = c.use_super_gasp ∧
      (set_unwrap_onset v c).filename = c.filename ∧
      (set_unwrap_onset v c).cube = c.cube ∧
      (set_unwrap_onset v c).temp_cube_save = c.temp_cube_save ∧
      (set_unwrap_onset v c).cdata = c.cdata ∧
      (set_unwrap_onset v c).temp_cdata_save = c.temp_cdata_save) ∧
    (∀ (c : ThreadContext Cube Cdata) (v : Bool),
      (set_single_expand v c).single_expand = v ∧
      (set_single_expand v c).debug = c.debug ∧
      (set_single_expand v c).verbose_debug = c.verbose_debug ∧
      (set_single_expand v c).total_name = c.total_name ∧
      (set_single_expand v c).total_time = c.total_time ∧
      (set_single_expand v c).total_calls = c.total_calls ∧
      (set_single_expand v c).echo_comments = c.echo_comments ∧
      (set_single_expand v c).echo_unknown_commands = c.echo_unknown_commands ∧
      (set_single_expand v c).force_irredundant = c.force_irredundant ∧
      (set_single_expand v c).skip_make_sparse = c.skip_make_sparse ∧
      (set_single_expand v c).kiss = c.kiss ∧
      (set_single_expand v c).pos = c.pos ∧
      (set_single_expand v c).print_solution = c.print_solution ∧
      (set_single_expand v c).recompute_onset = c.recompute_onset ∧
      (set_single_expand v c).remove_essential = c.remove_essential ∧
      (set_single_expand v c).summary = c.summary ∧
      (set_single_expand v c).trace = c.trace ∧
      (set_single_expand v c).unwrap_onset = c.unwrap_onset ∧
      (set_single_expand v c).use_random_order = c.use_random_order ∧
      (set_single_expand v c).use_super_gasp = c.use_super_gasp ∧
      (set_single_expand v c).filename = c.filename ∧
      (set_single_expand v c).cube = c.cube ∧
      (set_single_expand v c).temp_cube_save = c.temp_cube_save ∧
      (set_single_expand v c).cdata = c.cdata ∧
      (set_single_expand v c).temp_cdata_save = c.temp_cdata_save) ∧
    (∀ (c : ThreadContext Cube Cdata) (v : Bool),
      (set_use_super_gasp v c).use_super_gasp = v ∧
      (set_use_super_gasp v c).debug = c.debug ∧
      (set_use_super_gasp v c).verbose_debug = c.verbose_debug ∧
      (set_use_super_gasp v c).total_name = c.total_name ∧
      (set_use_super_gasp v c).total_time = c.total_time ∧
      (set_use_super_gasp v c).total_calls = c.total_calls ∧
      (set_use_super_gasp v c).echo_comments = c.echo_comments ∧
      (set_use_super_gasp v c).echo_unknown_commands = c.echo_unknown_commands ∧
      (set_use_super_gasp v c).force_irredundant = c.force_irredundant ∧
      (set_use_super_gasp v c).skip_make_sparse = c.skip_make_sparse ∧
      (set_use_super_gasp v c).kiss = c.kiss ∧
      (set_use_super_gasp v c).pos = c.pos ∧
      (set_use_super_gasp v c).print_solution = c.print_solution ∧
      (set_use_super_gasp v c).recompute_onset = c.recompute_onset ∧
      (set_use_super_gasp v c).remove_essential = c.remove_essential ∧
      (set_use_super_gasp v c).single_expand = c.single_expand ∧
      (set_use_super_gasp v c).summary = c.summary ∧
      (set_use_super_gasp v c).trace = c.trace ∧
      (set_use_super_gasp v c).unwrap_onset = c.unwrap_onset ∧
      (set_use_super_gasp v c).use_random_order = c.use_random_order ∧
      (set_use_super_gasp v c).filename = c.filename ∧
      (set_use_super_gasp v c).cube = c.cube ∧
      (set_use_super_gasp v c).temp_cube_save = c.temp_cube_save ∧
      (set_use_super_gasp v c).cdata = c.cdata ∧
      (set_use_super_gasp v c).temp_cdata_save = c.temp_cdata_save) ∧
    (∀ (c : ThreadContext Cube Cdata) (v : Bool),
      (set_use_random_order v c).use_random_order = v ∧
      (set_use_random_order v c).debug = c.debug ∧
      (set_use_random_order v c).verbose_debug = c.verbose_debug ∧
      (set_use_random_order v c).total_name = c.total_name ∧
      (set_use_random_order v c).total_time = c.total_time ∧
      (set_use_random_order v c).total_calls = c.total_calls ∧
      (set_use_random_order v c).echo_comments = c.echo_comments ∧
      (set_use_random_order v c).echo_unknown_commands = c.echo_unknown_commands ∧
      (set_use_random_order v c).force_irredundant = c.force_irredundant ∧
      (set_use_random_order v c).skip_make_sparse = c.skip_make_sparse ∧
      (set_use_random_order v c).kiss = c.kiss ∧
      (set_use_random_order v c).pos = c.pos ∧
      (set_use_random_order v c).print_solution = c.print_solution ∧
      (set_use_random_order v c).recompute_onset = c.recompute_onset ∧
      (set_use_random_order v c).remove_essential = c.remove_essential ∧
      (set_use_random_order v c).single_expand = c.single_expand ∧
      (set_use_random_order v c).summary = c.summary ∧
      (set_use_random_order v c).trace = c.trace ∧
      (set_use_random_order v c).unwrap_onset = c.unwrap_onset ∧
      (set_use_random_order v c).use_super_gasp = c.use_super_gasp ∧
      (set_use_random_order v c).filename = c.filename ∧
      (set_use_random_order v c).cube = c.cube ∧
      (set_use_random_order v c).temp_cube_save = c.temp_cube_save ∧
      (set_use_random_order v c).cdata = c.cdata ∧
      (set_use_random_order v c).temp_cdata_save = c.temp_cdata_save) ∧
    (∀ (c : ThreadContext Cube Cdata) (v : Bool),
      (set_skip_make_sparse v c).skip_make_sparse = v ∧
      (set_skip_make_sparse v c).debug = c.debug ∧
      (set_skip_make_sparse v c).verbose_debug = c.verbose_debug ∧
      (set_skip_make_sparse v c).total_name = c.total_name ∧
      (set_skip_make_sparse v c).total_time = c.total_time ∧
      (set_skip_make_sparse v c).total_calls = c.total_calls ∧
      (set_skip_make_sparse v c).echo_comments = c.echo_comments ∧
      (set_skip_make_sparse v c).echo_unknown_commands = c.echo_unknown_commands ∧
      (set_skip_make_sparse v c).force_irredundant = c.force_irredundant ∧
      (set_skip_make_sparse v c).kiss = c.kiss ∧
      (set_skip_make_sparse v c).pos = c.pos ∧
      (set_skip_make_sparse v c).print_solution = c.print_solution ∧
      (set_skip_make_sparse v c).recompute_onset = c.recompute_onset ∧
      (set_skip_make_sparse v c).remove_essential = c.remove_essential ∧
      (set_skip_make_sparse v c).single_expand = c.single_expand ∧
      (set_skip_make_sparse v c).summary = c.summary ∧
      (set_skip_make_sparse v c).trace = c.trace ∧
      (set_skip_make_sparse v c).unwrap_onset = c.unwrap_onset ∧
      (set_skip_make_sparse v c).use_random_order = c.use_random_order ∧
      (set_skip_make_sparse v c).use_super_gasp = c.use_super_gasp ∧
      (set_skip_make_sparse v c).filename = c.filename ∧
      (set_skip_make_sparse v c).cube = c.cube ∧
      (set_skip_make_sparse v c).temp_cube_save = c.temp_cube_save ∧
      (set_skip_make_sparse v c).cdata = c.cdata ∧
      (set_skip_make_sparse v c).temp_cdata_save = c.temp_cdata_save) := by
  exact ⟨fun c v => ⟨rfl, rfl, rfl, rfl, rfl, rfl, rfl, rfl, rfl, rfl, rfl, rfl, rfl, rfl, rfl, rfl, rfl, rfl, rfl, rfl, rfl, rfl, rfl, rfl, rfl⟩,
    fun c v => ⟨rfl, rfl, rfl, rfl, rfl, rfl, rfl, rfl, rfl, rfl, rfl, rfl, rfl, rfl, rfl, rfl, rfl, rfl, rfl, rfl, rfl, rfl, rfl, rfl, rfl⟩,
    fun c v => ⟨rfl, rfl, rfl, rfl, rfl, rfl, rfl, rfl, rfl, rfl, rfl, rfl, rfl, rfl, rfl, rfl, rfl, rfl, rfl, rfl, rfl, rfl, rfl, rfl, rfl⟩,
    fun c v => ⟨rfl, rfl, rfl, rfl, rfl, rfl, rfl, rfl, rfl, rfl, rfl, rfl, rfl, rfl, rfl, rfl, rfl, rfl, rfl, rfl, rfl, rfl, rfl, rfl, rfl⟩,
    fun c v => ⟨rfl, rfl, rfl, rfl, rfl, rfl, rfl, rfl, rfl, rfl, rfl, rfl, rfl, rfl, rfl, rfl, rfl, rfl, rfl, rfl, rfl, rfl, rfl, rfl, rfl⟩,
    fun c v => ⟨rfl, rfl, rfl, rfl, rfl, rfl, rfl, rfl, rfl, rfl, rfl, rfl, rfl, rfl, rfl, rfl, rfl, rfl, rfl, rfl, rfl, rfl, rfl, rfl, rfl⟩,
    fun c v => ⟨rfl, rfl, rfl, rfl, rfl, rfl, rfl, rfl, rfl, rfl, rfl, rfl, rfl, rfl, rfl, rfl, rfl, rfl, rfl, rfl, rfl, rfl, rfl, rfl, rfl⟩,
    fun c v => ⟨rfl, rfl, rfl, rfl, rfl, rfl, rfl, rfl, rfl, rfl, rfl, rfl, rfl, rfl, rfl, rfl, rfl, rfl, rfl, rfl, rfl, rfl, rfl, rfl, rfl⟩,
    fun c v => ⟨rfl, rfl, rfl, rfl, rfl, rfl, rfl, rfl, rfl, rfl, rfl, rfl, rfl, rfl, rfl, rfl, rfl, rfl, rfl, rfl, rfl, rfl, rfl, rfl, rfl⟩,
    fun c v => ⟨rfl, rfl, rfl, rfl, rfl, rfl, rfl, rfl, rfl, rfl, rfl, rfl, rfl, rfl, rfl, rfl, rfl, rfl, rfl, rfl, rfl, rfl, rfl, rfl, rfl⟩,
    fun c v => ⟨rfl, rfl, rfl, rfl, rfl, rfl, rfl, rfl, rfl, rfl, rfl, rfl, rfl, rfl, rfl, rfl, rfl, rfl, rfl, rfl, rfl, rfl, rfl, rfl, rfl⟩⟩

end Espresso
